import Mathlib

/-!
# Hot-reload supervisor, dispatcher and module-side latch

A shallow embedding of `bralltog.c` (built with `DEV_MODE` defined, as the file
does) and of the asset-reload latch of `game.c`.

Conventions of the embedding:

* pointers (`void*`, function pointers, `FILE*`) are natural numbers, `0` is `NULL`;
* `time_t` values are integers (only compared, never added);
* `Uint64` ticks are naturals, the one subtraction is taken modulo `2^64`;
* `int load_counter` is an integer; it only grows by one per load attempt and
  its overflow is not modelled;
* the file-scope globals and the function-local `static`s of
  `reload_library_if_modified` are the fields of `State`;
* everything the function asks of the outside world during one call
  (clock, `stat`, `fopen`, `dlopen`, `dlsym`) is a field of `Env`;
* every call to the outside world is recorded, in program order, in a list
  of `Effect`s.
-/

namespace Bralltog

/-! ## Constants and enumerations of `bralltog.c` -/

def RELOAD_CHECK_INTERVAL_MS : Nat := 500

inductive ReloadResult where
  | RELOAD_FAILED
  | RELOAD_NONE
  | RELOAD_SUCCESS
  deriving DecidableEq, Repr

inductive SDL_AppResult where
  | SDL_APP_CONTINUE
  | SDL_APP_SUCCESS
  | SDL_APP_FAILURE
  deriving DecidableEq, Repr

open ReloadResult SDL_AppResult

def APP_INIT_FUNC_NAME : String := "Core_SDL_AppInit"
def APP_ITERATE_FUNC_NAME : String := "Core_SDL_AppIterate"
def APP_EVENT_FUNC_NAME : String := "Core_SDL_AppEvent"
def APP_QUIT_FUNC_NAME : String := "Core_SDL_AppQuit"
def LIB_PATH : String := "./libgame.so"
def ASSETS_PATH : String := "./assets"

/-- Globals of `bralltog.c` together with the `static` locals of
`reload_library_if_modified`. -/
structure State where
  handle : Nat
  Core_SDL_AppInit_ptr : Nat
  Core_SDL_AppIterate_ptr : Nat
  Core_SDL_AppEvent_ptr : Nat
  Core_SDL_AppQuit_ptr : Nat
  last_lib_mtime : Int
  last_assets_mtime : Int
  last_check_time : Nat
  load_counter : Int
  deriving DecidableEq, Repr

/-- State at process start: `handle = NULL`, zero-initialised statics and
function pointers. -/
def State.initial : State :=
  { handle := 0
    Core_SDL_AppInit_ptr := 0
    Core_SDL_AppIterate_ptr := 0
    Core_SDL_AppEvent_ptr := 0
    Core_SDL_AppQuit_ptr := 0
    last_lib_mtime := 0
    last_assets_mtime := 0
    last_check_time := 0
    load_counter := 0 }

/-- What the outside world answers during one call.  The staging path
`/tmp/libgame_%d.so` is identified by the value printed for `%d`. -/
structure Env where
  /-- Value returned by `SDL_GetTicks()`. -/
  now : Nat
  /-- Outcome of `stat(path, &st)`: `some st_mtime` when it returns 0. -/
  stat : String → Option Int
  /-- Whether `fopen(LIB_PATH, "rb")` returns a non-null stream. -/
  fopen_src : Bool
  /-- Whether `fopen(temp_path, "wb")` returns a non-null stream. -/
  fopen_dst : Int → Bool
  /-- Result of `dlopen(temp_path, RTLD_NOW)`. -/
  dlopen : Int → Nat
  /-- Result of `dlsym(h, name)`. -/
  dlsym : Nat → String → Nat

/-- Calls made to the outside world, and diagnostics printed. -/
inductive Effect where
  | stat (path : String)
  | fopen_src
  | fopen_dst (n : Int)
  | fclose_src
  | fclose_dst (n : Int)
  | copy (n : Int)
  | dlopen (n : Int)
  | dlsym (h : Nat) (name : String)
  | print (msg : String)
  deriving DecidableEq, Repr

/-- Difference of two `Uint64` values. -/
def u64sub (a b : Nat) : Nat := (a % 2 ^ 64 + (2 ^ 64 - b % 2 ^ 64)) % 2 ^ 64

/-- The function `get_mtime`: `stat(path, &st) == 0 ? st.st_mtime : -1`. -/
def get_mtime (env : Env) (path : String) : Int :=
  match env.stat path with
  | some t => t
  | none => -1

/-- The function `reload_all_symbols`: the four globals are assigned first,
then tested.  Returns the new state and the C return value (`true` for 1). -/
def reload_all_symbols (env : Env) (s : State) (h : Nat) : State × Bool × List Effect :=
  let s1 : State :=
    { s with
      Core_SDL_AppInit_ptr := env.dlsym h APP_INIT_FUNC_NAME
      Core_SDL_AppIterate_ptr := env.dlsym h APP_ITERATE_FUNC_NAME
      Core_SDL_AppEvent_ptr := env.dlsym h APP_EVENT_FUNC_NAME
      Core_SDL_AppQuit_ptr := env.dlsym h APP_QUIT_FUNC_NAME }
  let eff : List Effect :=
    [Effect.dlsym h APP_INIT_FUNC_NAME, Effect.dlsym h APP_ITERATE_FUNC_NAME,
     Effect.dlsym h APP_EVENT_FUNC_NAME, Effect.dlsym h APP_QUIT_FUNC_NAME]
  if s1.Core_SDL_AppInit_ptr = 0 ∨ s1.Core_SDL_AppIterate_ptr = 0 ∨
      s1.Core_SDL_AppEvent_ptr = 0 ∨ s1.Core_SDL_AppQuit_ptr = 0 then
    (s1, false, eff ++ [Effect.print "dlsym failed"])
  else
    (s1, true, eff)

/-- The guard of line 74, `handle && now - last_check_time < RELOAD_CHECK_INTERVAL_MS`:
the call returns at once without looking at the file system. -/
def throttled (env : Env) (s : State) : Prop :=
  s.handle ≠ 0 ∧ u64sub env.now s.last_check_time < RELOAD_CHECK_INTERVAL_MS

instance (env : Env) (s : State) : Decidable (throttled env s) := by
  unfold throttled; infer_instance

/-- The comparison of line 82, `lib_mtime > last_lib_mtime`. -/
def lib_changed (env : Env) (s : State) : Prop :=
  get_mtime env LIB_PATH > s.last_lib_mtime

/-- The comparison of line 83, `assets_mtime > last_assets_mtime`. -/
def assets_changed (env : Env) (s : State) : Prop :=
  get_mtime env ASSETS_PATH > s.last_assets_mtime

instance (env : Env) (s : State) : Decidable (lib_changed env s) := by
  unfold lib_changed; infer_instance

instance (env : Env) (s : State) : Decidable (assets_changed env s) := by
  unfold assets_changed; infer_instance

/-- The path of the function on which line 123 is reached: the check is
performed, the module file is seen advanced, both streams of the staging
copy open, and `dlopen` of the staged copy returns a non-null handle. -/
def loads (env : Env) (s : State) : Prop :=
  ¬ throttled env s ∧ lib_changed env s ∧ env.fopen_src = true ∧
    env.fopen_dst s.load_counter = true ∧ env.dlopen s.load_counter ≠ 0

instance (env : Env) (s : State) : Decidable (loads env s) := by
  unfold loads; infer_instance

/-- Result of one call of `reload_library_if_modified`. -/
structure Outcome where
  state : State
  result : ReloadResult
  effects : List Effect

/-- The function `reload_library_if_modified`. -/
def reload_library_if_modified (env : Env) (s : State) : Outcome :=
  let now := env.now % 2 ^ 64
  if throttled env s then
    ⟨s, RELOAD_NONE, []⟩
  else
    let s1 : State := { s with last_check_time := now }
    let lib_mtime := get_mtime env LIB_PATH
    let assets_mtime := get_mtime env ASSETS_PATH
    let e1 : List Effect := [Effect.stat LIB_PATH, Effect.stat ASSETS_PATH]
    let lib_changed : Bool := decide (lib_mtime > s1.last_lib_mtime)
    let assets_changed : Bool := decide (assets_mtime > s1.last_assets_mtime)
    if !lib_changed && !assets_changed then
      ⟨s1, RELOAD_NONE, e1⟩
    else
      let s2 : State :=
        if assets_changed then { s1 with last_assets_mtime := assets_mtime } else s1
      let e2 : List Effect :=
        if assets_changed then e1 ++ [Effect.print "Assets changed, triggering reload..."]
        else e1
      if lib_changed then
        let n := s2.load_counter
        let s3 : State := { s2 with load_counter := n + 1 }
        let e3 := e2 ++ [Effect.fopen_src, Effect.fopen_dst n]
        if !env.fopen_src || !env.fopen_dst n then
          ⟨s3, if s3.handle ≠ 0 then RELOAD_NONE else RELOAD_FAILED,
            e3 ++ [Effect.print "Failed to copy library"]
              ++ (if env.fopen_src then [Effect.fclose_src] else [])
              ++ (if env.fopen_dst n then [Effect.fclose_dst n] else [])⟩
        else
          let e4 := e3 ++ [Effect.copy n, Effect.fclose_src, Effect.fclose_dst n,
            Effect.dlopen n]
          let new_handle := env.dlopen n
          if new_handle = 0 then
            ⟨s3, if s3.handle ≠ 0 then RELOAD_NONE else RELOAD_FAILED,
              e4 ++ [Effect.print "dlopen"]⟩
          else
            let s4 : State := { s3 with last_lib_mtime := lib_mtime, handle := new_handle }
            let r := reload_all_symbols env s4 s4.handle
            if !r.2.1 then
              ⟨r.1, RELOAD_FAILED, e4 ++ [Effect.print "Reloading library..."] ++ r.2.2⟩
            else
              ⟨r.1, RELOAD_SUCCESS, e4 ++ [Effect.print "Reloading library..."] ++ r.2.2⟩
      else
        ⟨s2, RELOAD_SUCCESS, e2⟩

/-! ## The dispatcher: `SDL_AppInit`, `SDL_AppIterate`, `SDL_AppEvent`, `SDL_AppQuit` -/

/-- A call made through one of the four function pointers: the pointer that
is called, the arguments as passed, and the trailing `reloaded` flag. -/
inductive Call where
  | init (ptr : Nat) (appstate : Nat) (argc : Int) (argv : Nat) (reloaded : Bool)
  | iterate (ptr : Nat) (appstate : Nat) (reloaded : Bool)
  | event (ptr : Nat) (appstate : Nat) (event : Nat) (reloaded : Bool)
  | quit (ptr : Nat) (appstate : Nat) (result : SDL_AppResult) (reloaded : Bool)
  deriving DecidableEq, Repr

/-- Result of one dispatcher call: state of the supervisor afterwards, the
outside-world effects of the reload check, the calls made through the bound
function pointers, and the value returned to the host. -/
structure Dispatch where
  state : State
  effects : List Effect
  calls : List Call
  result : SDL_AppResult

/-- Result of `SDL_AppQuit`, which returns `void`. -/
structure DispatchQuit where
  state : State
  effects : List Effect
  calls : List Call

/-- The function `SDL_AppInit`; `invoke c` is the value the called entry
point returns. -/
def SDL_AppInit (env : Env) (invoke : Call → SDL_AppResult) (s : State)
    (appstate : Nat) (argc : Int) (argv : Nat) : Dispatch :=
  let r := reload_library_if_modified env s
  if r.result = RELOAD_FAILED then
    ⟨r.state, r.effects, [], SDL_APP_FAILURE⟩
  else
    let c := Call.init r.state.Core_SDL_AppInit_ptr appstate argc argv
      (decide (r.result = RELOAD_SUCCESS))
    ⟨r.state, r.effects, [c], invoke c⟩

/-- The function `SDL_AppIterate`. -/
def SDL_AppIterate (env : Env) (invoke : Call → SDL_AppResult) (s : State)
    (appstate : Nat) : Dispatch :=
  let r := reload_library_if_modified env s
  if r.result = RELOAD_FAILED then
    ⟨r.state, r.effects, [], SDL_APP_FAILURE⟩
  else
    let c := Call.iterate r.state.Core_SDL_AppIterate_ptr appstate
      (decide (r.result = RELOAD_SUCCESS))
    ⟨r.state, r.effects, [c], invoke c⟩

/-- The function `SDL_AppEvent`. -/
def SDL_AppEvent (env : Env) (invoke : Call → SDL_AppResult) (s : State)
    (appstate : Nat) (event : Nat) : Dispatch :=
  let r := reload_library_if_modified env s
  if r.result = RELOAD_FAILED then
    ⟨r.state, r.effects, [], SDL_APP_FAILURE⟩
  else
    let c := Call.event r.state.Core_SDL_AppEvent_ptr appstate event
      (decide (r.result = RELOAD_SUCCESS))
    ⟨r.state, r.effects, [c], invoke c⟩

/-- The function `SDL_AppQuit`. -/
def SDL_AppQuit (env : Env) (s : State) (appstate : Nat) (result : SDL_AppResult) :
    DispatchQuit :=
  let r := reload_library_if_modified env s
  if r.result = RELOAD_FAILED then
    ⟨r.state, r.effects, []⟩
  else
    ⟨r.state, r.effects,
      [Call.quit r.state.Core_SDL_AppQuit_ptr appstate result
        (decide (r.result = RELOAD_SUCCESS))]⟩

/-- Successive calls of `reload_library_if_modified`, one per environment,
each starting from the state the previous one left. -/
def runReloads : State → List Env → List Outcome
  | _, [] => []
  | s, env :: rest =>
    let r := reload_library_if_modified env s
    r :: runReloads r.state rest

/-! ## The asset-reload latch of `game.c` -/

/-- The struct `GameContext`. -/
structure GameContext where
  lastTime : Nat
  x : Int
  y : Int
  window : Nat
  renderer : Nat
  image : Nat
  font : Nat
  mixer : Nat
  sound : Nat
  music : Nat
  musicMuted : Bool
  deriving DecidableEq, Repr

/-- What the SDL libraries answer while assets are loaded during one call. -/
structure GameEnv where
  /-- Result of `IMG_LoadTexture(renderer, path)`. -/
  IMG_LoadTexture : Nat → String → Nat
  /-- Result of `MIX_LoadAudio(mixer, path, true)`. -/
  MIX_LoadAudio : Nat → String → Nat
  /-- Result of the `MIX_CreateTrack(mixer)` call made for `path`. -/
  MIX_CreateTrack : Nat → String → Nat
  /-- Result of `TTF_OpenFont(path, 48)`. -/
  TTF_OpenFont : String → Nat

/-- Library calls made by the asset functions. -/
inductive GameEffect where
  | TTF_CloseFont (p : Nat)
  | MIX_DestroyTrack (p : Nat)
  | SDL_DestroyTexture (p : Nat)
  | IMG_LoadTexture (renderer : Nat) (path : String)
  | MIX_LoadAudio (mixer : Nat) (path : String)
  | MIX_CreateTrack (mixer : Nat)
  | MIX_SetTrackAudio (track : Nat) (audio : Nat)
  | MIX_DestroyAudio (audio : Nat)
  | TTF_OpenFont (path : String)
  | log (msg : String)
  deriving DecidableEq, Repr

/-- The function `loadTexture`. -/
def loadTexture (env : GameEnv) (path : String) (renderer : Nat) : Nat × List GameEffect :=
  let newTexture := env.IMG_LoadTexture renderer path
  if newTexture = 0 then
    (0, [GameEffect.IMG_LoadTexture renderer path, GameEffect.log "Could not load image at"])
  else
    (newTexture, [GameEffect.IMG_LoadTexture renderer path])

/-- The function `loadTrack`. -/
def loadTrack (env : GameEnv) (mixer : Nat) (path : String) : Nat × List GameEffect :=
  let sound := env.MIX_LoadAudio mixer path
  if sound = 0 then
    (0, [GameEffect.MIX_LoadAudio mixer path, GameEffect.log "Could not load sound at"])
  else
    let track := env.MIX_CreateTrack mixer path
    (track, [GameEffect.MIX_LoadAudio mixer path, GameEffect.MIX_CreateTrack mixer,
      GameEffect.MIX_SetTrackAudio track sound, GameEffect.MIX_DestroyAudio sound])

/-- The function `freeAllAssets`. -/
def freeAllAssets (ctx : GameContext) : GameContext × List GameEffect :=
  let e1 := if ctx.font ≠ 0 then [GameEffect.TTF_CloseFont ctx.font] else []
  let c1 := if ctx.font ≠ 0 then { ctx with font := 0 } else ctx
  let e2 := if c1.sound ≠ 0 then [GameEffect.MIX_DestroyTrack c1.sound] else []
  let c2 := if c1.sound ≠ 0 then { c1 with sound := 0 } else c1
  let e3 := if c2.music ≠ 0 then [GameEffect.MIX_DestroyTrack c2.music] else []
  let c3 := if c2.music ≠ 0 then { c2 with music := 0 } else c2
  let e4 := if c3.image ≠ 0 then [GameEffect.SDL_DestroyTexture c3.image] else []
  let c4 := if c3.image ≠ 0 then { c3 with image := 0 } else c3
  (c4, e1 ++ e2 ++ e3 ++ e4)

/-- The function `loadAllAssets`. -/
def loadAllAssets (env : GameEnv) (ctx : GameContext) (renderer : Nat) :
    GameContext × SDL_AppResult × List GameEffect :=
  let t := loadTexture env "assets/image.png" renderer
  let c1 := { ctx with image := t.1 }
  if c1.image = 0 then
    (c1, SDL_APP_FAILURE, t.2 ++ [GameEffect.log "Could not load image."])
  else
    let s := loadTrack env c1.mixer "assets/sound.wav"
    let c2 := { c1 with sound := s.1 }
    if c2.sound = 0 then
      (c2, SDL_APP_FAILURE, t.2 ++ s.2 ++ [GameEffect.log "Could not load sound."])
    else
      let m := loadTrack env c2.mixer "assets/music.wav"
      let c3 := { c2 with music := m.1 }
      if c3.music = 0 then
        (c3, SDL_APP_FAILURE, t.2 ++ s.2 ++ m.2 ++ [GameEffect.log "Could not load music."])
      else
        let c4 := { c3 with font := env.TTF_OpenFont "assets/font.ttf" }
        let e4 := t.2 ++ s.2 ++ m.2 ++ [GameEffect.TTF_OpenFont "assets/font.ttf"]
        if c4.font = 0 then
          (c4, SDL_APP_FAILURE, e4 ++ [GameEffect.log "Font could not be loaded!"])
        else
          (c4, SDL_APP_CONTINUE, e4)

/-- Result of one call of `reloadAssetsIfNeeded`: the value of the static
`last_reload_handled` afterwards, the context afterwards, the returned value
and the library calls made. -/
structure LatchStep where
  last_reload_handled : Bool
  ctx : GameContext
  result : SDL_AppResult
  effects : List GameEffect
  deriving DecidableEq, Repr

/-- The function `reloadAssetsIfNeeded`; the static `last_reload_handled`
is passed in and returned. -/
def reloadAssetsIfNeeded (env : GameEnv) (last_reload_handled : Bool) (ctx : GameContext)
    (reloaded : Bool) : LatchStep :=
  if !reloaded then
    ⟨false, ctx, SDL_APP_CONTINUE, []⟩
  else if last_reload_handled then
    ⟨last_reload_handled, ctx, SDL_APP_CONTINUE, []⟩
  else
    let f := freeAllAssets ctx
    let l := loadAllAssets env f.1 f.1.renderer
    ⟨true, l.1, l.2.1, [GameEffect.log "Hot reload: reloading assets..."] ++ f.2 ++ l.2.2⟩

/-- Successive calls of `reloadAssetsIfNeeded`; each element of the input is
the `reloaded` argument of a call and the library answers during it.  Each
element of the output pairs the context the call received with its result. -/
def runLatch : Bool → GameContext → List (Bool × GameEnv) → List (GameContext × LatchStep)
  | _, _, [] => []
  | b, ctx, (reloaded, env) :: rest =>
    let r := reloadAssetsIfNeeded env b ctx reloaded
    (ctx, r) :: runLatch r.last_reload_handled r.ctx rest

/-! ## Concrete states and environments used to evaluate the definitions -/

/-- A state with a module bound: handle 1, entry points 10 to 13, module and
asset timestamps 10 and 5 recorded, last check at tick 0, one load so far. -/
def boundState : State :=
  { handle := 1
    Core_SDL_AppInit_ptr := 10
    Core_SDL_AppIterate_ptr := 11
    Core_SDL_AppEvent_ptr := 12
    Core_SDL_AppQuit_ptr := 13
    last_lib_mtime := 10
    last_assets_mtime := 5
    last_check_time := 0
    load_counter := 1 }

/-- An answer of `stat`: the module file has timestamp `lib`, the asset root
`assets`, and no other path exists. -/
def statOf (lib assets : Option Int) : String → Option Int :=
  fun p => if p = LIB_PATH then lib else if p = ASSETS_PATH then assets else none

/-- An answer of `dlsym`: in module 2 the four well-known names resolve to
`a`, `b`, `c`, `d`; nothing else resolves. -/
def symbolsOf (a b c d : Nat) : Nat → String → Nat :=
  fun h name =>
    if h ≠ 2 then 0
    else if name = APP_INIT_FUNC_NAME then a
    else if name = APP_ITERATE_FUNC_NAME then b
    else if name = APP_EVENT_FUNC_NAME then c
    else if name = APP_QUIT_FUNC_NAME then d
    else 0

/-- At tick 1000 the module file has the newer timestamp 20, the asset root
is unchanged, and the module file cannot be opened for the staging copy. -/
def envCopyFails : Env :=
  { now := 1000
    stat := statOf (some 20) (some 5)
    fopen_src := false
    fopen_dst := fun _ => true
    dlopen := fun _ => 2
    dlsym := symbolsOf 20 21 22 23 }

/-- At tick 1000 the module file has the newer timestamp 20, the copy and the
load succeed (new handle 2) and the four symbols resolve to 20 to 23. -/
def envGoodReload : Env :=
  { now := 1000
    stat := statOf (some 20) (some 5)
    fopen_src := true
    fopen_dst := fun _ => true
    dlopen := fun _ => 2
    dlsym := symbolsOf 20 21 22 23 }

/-- At tick 1000 the module file is unchanged and the asset root has the
newer timestamp 9. -/
def envAssetsOnly : Env :=
  { now := 1000
    stat := statOf (some 10) (some 9)
    fopen_src := true
    fopen_dst := fun _ => true
    dlopen := fun _ => 2
    dlsym := symbolsOf 20 21 22 23 }

/-- At process start (tick 0) the module file `./libgame.so` does not exist
and the asset root exists with timestamp 1700000000. -/
def envNoModule : Env :=
  { now := 0
    stat := statOf none (some 1700000000)
    fopen_src := false
    fopen_dst := fun _ => true
    dlopen := fun _ => 0
    dlsym := fun _ _ => 0 }

/-- At tick 1000 the module file has the newer timestamp 20 and the asset
root the newer timestamp 9; the copy and the load succeed (new handle 2), and
the new module exports every well-known name except `Core_SDL_AppEvent`. -/
def envPartial : Env :=
  { now := 1000
    stat := statOf (some 20) (some 9)
    fopen_src := true
    fopen_dst := fun _ => true
    dlopen := fun _ => 2
    dlsym := symbolsOf 20 21 0 23 }

/-- At tick `t` the module file and the asset root still carry the
timestamps 20 and 9 of `envPartial`, and the same module would be loaded. -/
def envAfterPartial (t : Nat) : Env :=
  { now := t
    stat := statOf (some 20) (some 9)
    fopen_src := true
    fopen_dst := fun _ => true
    dlopen := fun _ => 2
    dlsym := symbolsOf 20 21 0 23 }

/-- At tick `t` the module file and the asset root carry the timestamps 10
and 5 that `boundState` has recorded. -/
def envQuiet (t : Nat) : Env :=
  { now := t
    stat := statOf (some 10) (some 5)
    fopen_src := true
    fopen_dst := fun _ => true
    dlopen := fun _ => 2
    dlsym := symbolsOf 20 21 22 23 }

/-- A context whose four assets are loaded (pointers 31 to 34). -/
def loadedContext : GameContext :=
  { lastTime := 0, x := 100, y := 100, window := 1, renderer := 2, image := 31, font := 32,
    mixer := 3, sound := 33, music := 34, musicMuted := true }

/-- Library answers under which every asset loads. -/
def gameEnvOk : GameEnv :=
  { IMG_LoadTexture := fun _ _ => 41
    MIX_LoadAudio := fun _ _ => 42
    MIX_CreateTrack := fun _ _ => 43
    TTF_OpenFont := fun _ => 44 }

/-! ## Theorems about the supervisor -/

/-- The state left by `reload_all_symbols`: the four pointers are overwritten
with the four lookups, whatever they return. -/
theorem ras_fields (env : Env) (s : State) (h : Nat) :
    (reload_all_symbols env s h).1 =
      { s with
        Core_SDL_AppInit_ptr := env.dlsym h APP_INIT_FUNC_NAME
        Core_SDL_AppIterate_ptr := env.dlsym h APP_ITERATE_FUNC_NAME
        Core_SDL_AppEvent_ptr := env.dlsym h APP_EVENT_FUNC_NAME
        Core_SDL_AppQuit_ptr := env.dlsym h APP_QUIT_FUNC_NAME } := by
  unfold reload_all_symbols
  simp only []
  split <;> rfl

/-- The function `reload_all_symbols` returns 1 exactly when all four lookups
are non-null. -/
theorem ras_ok (env : Env) (s : State) (h : Nat) :
    (reload_all_symbols env s h).2.1 = true ↔
      (env.dlsym h APP_INIT_FUNC_NAME ≠ 0 ∧ env.dlsym h APP_ITERATE_FUNC_NAME ≠ 0 ∧
        env.dlsym h APP_EVENT_FUNC_NAME ≠ 0 ∧ env.dlsym h APP_QUIT_FUNC_NAME ≠ 0) := by
  unfold reload_all_symbols
  simp only []
  split
  · rename_i hc
    simp only [Bool.false_eq_true, false_iff]
    intro hn
    rcases hc with hc | hc | hc | hc
    · exact hn.1 hc
    · exact hn.2.1 hc
    · exact hn.2.2.1 hc
    · exact hn.2.2.2 hc
  · rename_i hc
    simp only [not_or] at hc
    simp only [true_iff]
    exact hc

/-- The state left by one call, written field by field. -/
theorem reload_state (env : Env) (s : State) :
    (reload_library_if_modified env s).state =
      { handle := if loads env s then env.dlopen s.load_counter else s.handle
        Core_SDL_AppInit_ptr :=
          if loads env s then env.dlsym (env.dlopen s.load_counter) APP_INIT_FUNC_NAME
          else s.Core_SDL_AppInit_ptr
        Core_SDL_AppIterate_ptr :=
          if loads env s then env.dlsym (env.dlopen s.load_counter) APP_ITERATE_FUNC_NAME
          else s.Core_SDL_AppIterate_ptr
        Core_SDL_AppEvent_ptr :=
          if loads env s then env.dlsym (env.dlopen s.load_counter) APP_EVENT_FUNC_NAME
          else s.Core_SDL_AppEvent_ptr
        Core_SDL_AppQuit_ptr :=
          if loads env s then env.dlsym (env.dlopen s.load_counter) APP_QUIT_FUNC_NAME
          else s.Core_SDL_AppQuit_ptr
        last_lib_mtime := if loads env s then get_mtime env LIB_PATH else s.last_lib_mtime
        last_assets_mtime :=
          if ¬ throttled env s ∧ assets_changed env s then get_mtime env ASSETS_PATH
          else s.last_assets_mtime
        last_check_time := if throttled env s then s.last_check_time else env.now % 2 ^ 64
        load_counter :=
          if ¬ throttled env s ∧ lib_changed env s then s.load_counter + 1
          else s.load_counter } := by
  unfold reload_library_if_modified loads lib_changed assets_changed
  by_cases ht : throttled env s
  · simp [ht]
  · simp only [if_neg ht, ras_fields]
    by_cases hl : get_mtime env LIB_PATH > s.last_lib_mtime <;>
    by_cases ha : get_mtime env ASSETS_PATH > s.last_assets_mtime <;>
    simp only [hl, ha, decide_True, decide_False, Bool.not_true, Bool.not_false,
      Bool.and_true, Bool.and_false, Bool.false_and, Bool.true_and, if_true, if_false,
      Bool.false_eq_true, ite_true, ite_false, not_true_eq_false, not_false_eq_true,
      true_and, false_and, and_true, and_false, ht]
    · by_cases hs : env.fopen_src = true
      · by_cases hd : env.fopen_dst s.load_counter = true
        · by_cases ho : env.dlopen s.load_counter = 0
          · simp [hs, hd, ho, ht]
          · simp [hs, hd, ho, ht]
            split <;> simp
        · simp [hs, hd, ht]
      · simp [hs, ht]
    · by_cases hs : env.fopen_src = true
      · by_cases hd : env.fopen_dst s.load_counter = true
        · by_cases ho : env.dlopen s.load_counter = 0
          · simp [hs, hd, ho, ht]
          · simp [hs, hd, ho, ht]
            split <;> simp
        · simp [hs, hd, ht]
      · simp [hs, ht]

/-- The value returned by one call, as a decision over the guards of the
function. -/
theorem reload_result (env : Env) (s : State) :
    (reload_library_if_modified env s).result =
      if throttled env s then RELOAD_NONE
      else if ¬ lib_changed env s ∧ ¬ assets_changed env s then RELOAD_NONE
      else if lib_changed env s then
        if loads env s then
          if env.dlsym (env.dlopen s.load_counter) APP_INIT_FUNC_NAME ≠ 0 ∧
              env.dlsym (env.dlopen s.load_counter) APP_ITERATE_FUNC_NAME ≠ 0 ∧
              env.dlsym (env.dlopen s.load_counter) APP_EVENT_FUNC_NAME ≠ 0 ∧
              env.dlsym (env.dlopen s.load_counter) APP_QUIT_FUNC_NAME ≠ 0
          then RELOAD_SUCCESS else RELOAD_FAILED
        else if s.handle ≠ 0 then RELOAD_NONE else RELOAD_FAILED
      else RELOAD_SUCCESS := by
  unfold reload_library_if_modified loads lib_changed assets_changed
  by_cases ht : throttled env s
  · simp [ht]
  · simp only [if_neg ht]
    by_cases hl : get_mtime env LIB_PATH > s.last_lib_mtime <;>
    by_cases ha : get_mtime env ASSETS_PATH > s.last_assets_mtime <;>
    simp only [hl, ha, decide_True, decide_False, Bool.not_true, Bool.not_false,
      Bool.and_true, Bool.and_false, Bool.false_and, Bool.true_and, if_true, if_false,
      Bool.false_eq_true, ite_true, ite_false, not_true_eq_false, not_false_eq_true,
      true_and, false_and, and_true, and_false, ht]
    · by_cases hs : env.fopen_src = true
      · by_cases hd : env.fopen_dst s.load_counter = true
        · by_cases ho : env.dlopen s.load_counter = 0
          · simp [hs, hd, ho, ht]
          · simp only [hs, hd, ho, ht, ← ras_ok env
              { s with last_check_time := env.now % 2 ^ 64,
                       last_assets_mtime := get_mtime env ASSETS_PATH,
                       load_counter := s.load_counter + 1,
                       last_lib_mtime := get_mtime env LIB_PATH,
                       handle := env.dlopen s.load_counter } (env.dlopen s.load_counter)]
            simp
            split <;> simp_all
        · simp [hs, hd, ht]
      · simp [hs, ht]
    · by_cases hs : env.fopen_src = true
      · by_cases hd : env.fopen_dst s.load_counter = true
        · by_cases ho : env.dlopen s.load_counter = 0
          · simp [hs, hd, ho, ht]
          · simp only [hs, hd, ho, ht, ← ras_ok env
              { s with last_check_time := env.now % 2 ^ 64,
                       load_counter := s.load_counter + 1,
                       last_lib_mtime := get_mtime env LIB_PATH,
                       handle := env.dlopen s.load_counter } (env.dlopen s.load_counter)]
            simp
            split <;> simp_all
        · simp [hs, hd, ht]
      · simp [hs, ht]


/-- C1 (failed reload preserves service): with a module bound, on a performed
check that sees the module file's timestamp advanced, a failed staging copy
(source or destination not opened) or a failed `dlopen` makes
`reload_library_if_modified` return `RELOAD_NONE`, leaves `handle` and the four
entry points as they were, and each dispatcher forwards to the old entry
point with `reloaded = false`. -/
theorem c1_failed_reload_preserves_service (env : Env) (s : State)
    (hbound : s.handle ≠ 0) (hcheck : ¬ throttled env s)
    (hlib : get_mtime env LIB_PATH > s.last_lib_mtime)
    (hfail : env.fopen_src = false ∨ env.fopen_dst s.load_counter = false ∨
      env.dlopen s.load_counter = 0) :
    (reload_library_if_modified env s).result = RELOAD_NONE ∧
    (reload_library_if_modified env s).state.handle = s.handle ∧
    (reload_library_if_modified env s).state.Core_SDL_AppInit_ptr = s.Core_SDL_AppInit_ptr ∧
    (reload_library_if_modified env s).state.Core_SDL_AppIterate_ptr
      = s.Core_SDL_AppIterate_ptr ∧
    (reload_library_if_modified env s).state.Core_SDL_AppEvent_ptr = s.Core_SDL_AppEvent_ptr ∧
    (reload_library_if_modified env s).state.Core_SDL_AppQuit_ptr = s.Core_SDL_AppQuit_ptr ∧
    (∀ invoke appstate argc argv,
      (SDL_AppInit env invoke s appstate argc argv).calls
        = [Call.init s.Core_SDL_AppInit_ptr appstate argc argv false]) ∧
    (∀ invoke appstate,
      (SDL_AppIterate env invoke s appstate).calls
        = [Call.iterate s.Core_SDL_AppIterate_ptr appstate false]) ∧
    (∀ invoke appstate event,
      (SDL_AppEvent env invoke s appstate event).calls
        = [Call.event s.Core_SDL_AppEvent_ptr appstate event false]) ∧
    (∀ appstate result,
      (SDL_AppQuit env s appstate result).calls
        = [Call.quit s.Core_SDL_AppQuit_ptr appstate result false]) := by
  have hkey : (reload_library_if_modified env s).result = RELOAD_NONE ∧
      (reload_library_if_modified env s).state.handle = s.handle ∧
      (reload_library_if_modified env s).state.Core_SDL_AppInit_ptr = s.Core_SDL_AppInit_ptr ∧
      (reload_library_if_modified env s).state.Core_SDL_AppIterate_ptr
        = s.Core_SDL_AppIterate_ptr ∧
      (reload_library_if_modified env s).state.Core_SDL_AppEvent_ptr
        = s.Core_SDL_AppEvent_ptr ∧
      (reload_library_if_modified env s).state.Core_SDL_AppQuit_ptr
        = s.Core_SDL_AppQuit_ptr := by
    unfold reload_library_if_modified
    simp only [if_neg hcheck]
    by_cases ha : get_mtime env ASSETS_PATH > s.last_assets_mtime
    · rcases hfail with h | h | h
      · simp [hlib, ha, h, hbound]
      · cases hs : env.fopen_src <;> simp [hlib, ha, h, hbound, hs]
      · cases hs : env.fopen_src <;> cases hd : env.fopen_dst s.load_counter <;>
          simp [hlib, ha, h, hbound, hs, hd]
    · rcases hfail with h | h | h
      · simp [hlib, ha, h, hbound]
      · cases hs : env.fopen_src <;> simp [hlib, ha, h, hbound, hs]
      · cases hs : env.fopen_src <;> cases hd : env.fopen_dst s.load_counter <;>
          simp [hlib, ha, h, hbound, hs, hd]
  obtain ⟨hr, hh, h1, h2, h3, h4⟩ := hkey
  refine ⟨hr, hh, h1, h2, h3, h4, ?_, ?_, ?_, ?_⟩
  · intro invoke appstate argc argv
    simp [SDL_AppInit, hr, h1]
  · intro invoke appstate
    simp [SDL_AppIterate, hr, h2]
  · intro invoke appstate event
    simp [SDL_AppEvent, hr, h3]
  · intro appstate result
    simp [SDL_AppQuit, hr, h4]

/-- Witness of C1: the bound state, with the module file newer and the
staging copy failing to open its source. -/
theorem c1_failed_reload_preserves_service_witness :
    boundState.handle ≠ 0 ∧ ¬ throttled envCopyFails boundState ∧
    get_mtime envCopyFails LIB_PATH > boundState.last_lib_mtime ∧
    (reload_library_if_modified envCopyFails boundState).result = RELOAD_NONE ∧
    (reload_library_if_modified envCopyFails boundState).state.handle = 1 ∧
    (SDL_AppIterate envCopyFails (fun _ => SDL_APP_CONTINUE) boundState 7).calls
      = [Call.iterate 11 7 false] :=
  have h := c1_failed_reload_preserves_service envCopyFails boundState
    (by decide) (by decide) (by decide) (Or.inl rfl)
  ⟨by decide, by decide, by decide, h.1, h.2.1, h.2.2.2.2.2.2.2.1 _ _⟩

/-- C4 (module change triggers full rebind): on a performed check that sees
the module file's timestamp advanced, when the staging copy and `dlopen`
succeed and all four symbols resolve, the call returns `RELOAD_SUCCESS`,
`handle` is the new handle, each entry point is the symbol of its well-known
name in the new module, and `last_lib_mtime` is the observed timestamp. -/
theorem c4_module_change_full_rebind (env : Env) (s : State)
    (hcheck : ¬ throttled env s)
    (hlib : get_mtime env LIB_PATH > s.last_lib_mtime)
    (hsrc : env.fopen_src = true) (hdst : env.fopen_dst s.load_counter = true)
    (hopen : env.dlopen s.load_counter ≠ 0)
    (hinit : env.dlsym (env.dlopen s.load_counter) APP_INIT_FUNC_NAME ≠ 0)
    (hiter : env.dlsym (env.dlopen s.load_counter) APP_ITERATE_FUNC_NAME ≠ 0)
    (hevent : env.dlsym (env.dlopen s.load_counter) APP_EVENT_FUNC_NAME ≠ 0)
    (hquit : env.dlsym (env.dlopen s.load_counter) APP_QUIT_FUNC_NAME ≠ 0) :
    (reload_library_if_modified env s).result = RELOAD_SUCCESS ∧
    (reload_library_if_modified env s).state.handle = env.dlopen s.load_counter ∧
    (reload_library_if_modified env s).state.Core_SDL_AppInit_ptr
      = env.dlsym (env.dlopen s.load_counter) APP_INIT_FUNC_NAME ∧
    (reload_library_if_modified env s).state.Core_SDL_AppIterate_ptr
      = env.dlsym (env.dlopen s.load_counter) APP_ITERATE_FUNC_NAME ∧
    (reload_library_if_modified env s).state.Core_SDL_AppEvent_ptr
      = env.dlsym (env.dlopen s.load_counter) APP_EVENT_FUNC_NAME ∧
    (reload_library_if_modified env s).state.Core_SDL_AppQuit_ptr
      = env.dlsym (env.dlopen s.load_counter) APP_QUIT_FUNC_NAME ∧
    (reload_library_if_modified env s).state.last_lib_mtime = get_mtime env LIB_PATH := by
  unfold reload_library_if_modified
  simp only [if_neg hcheck]
  by_cases ha : get_mtime env ASSETS_PATH > s.last_assets_mtime <;>
    simp [hlib, ha, hsrc, hdst, hopen, reload_all_symbols, hinit, hiter, hevent, hquit]

/-- Witness of C4: the bound state reloading module 2. -/
theorem c4_module_change_full_rebind_witness :
    ¬ throttled envGoodReload boundState ∧
    get_mtime envGoodReload LIB_PATH > boundState.last_lib_mtime ∧
    (reload_library_if_modified envGoodReload boundState).result = RELOAD_SUCCESS ∧
    (reload_library_if_modified envGoodReload boundState).state.handle = 2 ∧
    (reload_library_if_modified envGoodReload boundState).state.Core_SDL_AppEvent_ptr = 22 ∧
    (reload_library_if_modified envGoodReload boundState).state.last_lib_mtime = 20 :=
  have h := c4_module_change_full_rebind envGoodReload boundState
    (by decide) (by decide) rfl rfl (by decide) (by decide) (by decide) (by decide) (by decide)
  ⟨by decide, by decide, h.1, h.2.1, h.2.2.2.2.1, h.2.2.2.2.2.2⟩

/-- C5 (asset-only change): on a performed check that sees the module file's
timestamp not advanced and the asset root's timestamp advanced, the call
returns `RELOAD_SUCCESS`, leaves `handle`, the four entry points,
`last_lib_mtime` and `load_counter` unchanged, sets `last_assets_mtime` to the
observed asset timestamp, and touches the outside world only through the two
`stat` calls and one diagnostic (no copy, no load). -/
theorem c5_asset_only_change (env : Env) (s : State)
    (hcheck : ¬ throttled env s)
    (hlib : ¬ get_mtime env LIB_PATH > s.last_lib_mtime)
    (hassets : get_mtime env ASSETS_PATH > s.last_assets_mtime) :
    (reload_library_if_modified env s).result = RELOAD_SUCCESS ∧
    (reload_library_if_modified env s).state.handle = s.handle ∧
    (reload_library_if_modified env s).state.Core_SDL_AppInit_ptr = s.Core_SDL_AppInit_ptr ∧
    (reload_library_if_modified env s).state.Core_SDL_AppIterate_ptr
      = s.Core_SDL_AppIterate_ptr ∧
    (reload_library_if_modified env s).state.Core_SDL_AppEvent_ptr = s.Core_SDL_AppEvent_ptr ∧
    (reload_library_if_modified env s).state.Core_SDL_AppQuit_ptr = s.Core_SDL_AppQuit_ptr ∧
    (reload_library_if_modified env s).state.last_lib_mtime = s.last_lib_mtime ∧
    (reload_library_if_modified env s).state.load_counter = s.load_counter ∧
    (reload_library_if_modified env s).state.last_assets_mtime = get_mtime env ASSETS_PATH ∧
    (reload_library_if_modified env s).effects
      = [Effect.stat LIB_PATH, Effect.stat ASSETS_PATH,
         Effect.print "Assets changed, triggering reload..."] := by
  unfold reload_library_if_modified
  simp only [if_neg hcheck]
  simp [hlib, hassets]

/-- Witness of C5: the bound state seeing only the asset root change. -/
theorem c5_asset_only_change_witness :
    ¬ throttled envAssetsOnly boundState ∧
    ¬ get_mtime envAssetsOnly LIB_PATH > boundState.last_lib_mtime ∧
    get_mtime envAssetsOnly ASSETS_PATH > boundState.last_assets_mtime ∧
    (reload_library_if_modified envAssetsOnly boundState).result = RELOAD_SUCCESS ∧
    (reload_library_if_modified envAssetsOnly boundState).state.handle = 1 ∧
    (reload_library_if_modified envAssetsOnly boundState).state.last_assets_mtime = 9 :=
  have h := c5_asset_only_change envAssetsOnly boundState (by decide) (by decide) (by decide)
  ⟨by decide, by decide, by decide, h.1, h.2.1, h.2.2.2.2.2.2.2.2.1⟩


/-- C6 (edge-triggered reload flag): if a call returns `RELOAD_SUCCESS`, the
next call, at any tick, that observes the same timestamps of the module file
and the asset root, returns `RELOAD_NONE`, and the dispatchers running it
forward `reloaded = false`. -/
theorem c6_edge_triggered_reload_flag (env next : Env) (s : State)
    (hsucc : (reload_library_if_modified env s).result = RELOAD_SUCCESS)
    (hl : get_mtime next LIB_PATH = get_mtime env LIB_PATH)
    (ha : get_mtime next ASSETS_PATH = get_mtime env ASSETS_PATH) :
    (reload_library_if_modified next (reload_library_if_modified env s).state).result
      = RELOAD_NONE ∧
    (∀ invoke appstate,
      (SDL_AppIterate next invoke (reload_library_if_modified env s).state appstate).calls
        = [Call.iterate
            (reload_library_if_modified env s).state.Core_SDL_AppIterate_ptr appstate false]) ∧
    (∀ invoke appstate event,
      (SDL_AppEvent next invoke (reload_library_if_modified env s).state appstate event).calls
        = [Call.event
            (reload_library_if_modified env s).state.Core_SDL_AppEvent_ptr appstate event
            false]) := by
  -- after the successful call neither observed timestamp exceeds the recorded one
  have hrec : ¬ lib_changed next (reload_library_if_modified env s).state ∧
      ¬ assets_changed next (reload_library_if_modified env s).state := by
    rw [reload_result] at hsucc
    unfold lib_changed assets_changed
    rw [hl, ha, reload_state]
    simp only []
    by_cases ht : throttled env s
    · simp [ht] at hsucc
    · by_cases hlc : lib_changed env s
      · by_cases hld : loads env s
        · by_cases hac : assets_changed env s
          · simp [ht, hld, hac]
          · simp only [ht, hld, hac, if_true, and_false, if_false, gt_iff_lt, lt_self_iff_false,
              not_false_eq_true, true_and]
            exact hac
        · exfalso
          simp only [if_neg ht, hlc, if_neg hld, not_true_eq_false, false_and, if_false,
            if_true] at hsucc
          split at hsucc <;> simp at hsucc
      · have hnl : ¬ loads env s := fun h => hlc h.2.1
        by_cases hac : assets_changed env s
        · simp only [ht, hnl, hac, if_false, not_false_eq_true, and_self, if_true, gt_iff_lt,
            lt_self_iff_false, and_true]
          exact hlc
        · simp [ht, hlc, hac] at hsucc
  have hnone : (reload_library_if_modified next (reload_library_if_modified env s).state).result
      = RELOAD_NONE := by
    rw [reload_result]
    by_cases ht : throttled next (reload_library_if_modified env s).state
    · simp [ht]
    · simp [ht, hrec.1, hrec.2]
  have hnl : ¬ loads next (reload_library_if_modified env s).state := fun h => hrec.1 h.2.1
  have hst := reload_state next (reload_library_if_modified env s).state
  simp only [if_neg hnl] at hst
  refine ⟨hnone, ?_, ?_⟩
  · intro invoke appstate
    simp [SDL_AppIterate, hnone, hst]
  · intro invoke appstate event
    simp [SDL_AppEvent, hnone, hst]

/-- Witness of C6: a successful reload of module 2 followed, 600 ticks later,
by a check that sees the same two timestamps. -/
theorem c6_edge_triggered_reload_flag_witness :
    (reload_library_if_modified envGoodReload boundState).result = RELOAD_SUCCESS ∧
    (reload_library_if_modified { envGoodReload with now := 1600 }
      (reload_library_if_modified envGoodReload boundState).state).result = RELOAD_NONE :=
  ⟨by decide,
   (c6_edge_triggered_reload_flag envGoodReload { envGoodReload with now := 1600 } boundState
      (by decide) rfl rfl).1⟩


/-- C8 (dispatcher forwarding): each of the four dispatchers runs
`reload_library_if_modified` once (its state and effects are those of one
call); on `RELOAD_FAILED` the first three return `SDL_APP_FAILURE` and none of
the four calls an entry point; otherwise each makes exactly one call, through
its own pointer as bound after the check, with the original arguments and a
`reloaded` flag that is true exactly when the outcome is `RELOAD_SUCCESS`, and
the first three return what that call returns. -/
theorem c8_dispatcher_forwarding (env : Env) (invoke : Call → SDL_AppResult) (s : State)
    (appstate : Nat) (argc : Int) (argv : Nat) (event : Nat) (result : SDL_AppResult) :
    ((SDL_AppInit env invoke s appstate argc argv).state
        = (reload_library_if_modified env s).state ∧
      (SDL_AppInit env invoke s appstate argc argv).effects
        = (reload_library_if_modified env s).effects ∧
      (SDL_AppIterate env invoke s appstate).state = (reload_library_if_modified env s).state ∧
      (SDL_AppIterate env invoke s appstate).effects
        = (reload_library_if_modified env s).effects ∧
      (SDL_AppEvent env invoke s appstate event).state
        = (reload_library_if_modified env s).state ∧
      (SDL_AppEvent env invoke s appstate event).effects
        = (reload_library_if_modified env s).effects ∧
      (SDL_AppQuit env s appstate result).state = (reload_library_if_modified env s).state ∧
      (SDL_AppQuit env s appstate result).effects
        = (reload_library_if_modified env s).effects) ∧
    ((reload_library_if_modified env s).result = RELOAD_FAILED →
      (SDL_AppInit env invoke s appstate argc argv).calls = [] ∧
      (SDL_AppInit env invoke s appstate argc argv).result = SDL_APP_FAILURE ∧
      (SDL_AppIterate env invoke s appstate).calls = [] ∧
      (SDL_AppIterate env invoke s appstate).result = SDL_APP_FAILURE ∧
      (SDL_AppEvent env invoke s appstate event).calls = [] ∧
      (SDL_AppEvent env invoke s appstate event).result = SDL_APP_FAILURE ∧
      (SDL_AppQuit env s appstate result).calls = []) ∧
    ((reload_library_if_modified env s).result ≠ RELOAD_FAILED →
      (SDL_AppInit env invoke s appstate argc argv).calls
        = [Call.init (reload_library_if_modified env s).state.Core_SDL_AppInit_ptr
            appstate argc argv
            (decide ((reload_library_if_modified env s).result = RELOAD_SUCCESS))] ∧
      (SDL_AppInit env invoke s appstate argc argv).result
        = invoke (Call.init (reload_library_if_modified env s).state.Core_SDL_AppInit_ptr
            appstate argc argv
            (decide ((reload_library_if_modified env s).result = RELOAD_SUCCESS))) ∧
      (SDL_AppIterate env invoke s appstate).calls
        = [Call.iterate (reload_library_if_modified env s).state.Core_SDL_AppIterate_ptr
            appstate (decide ((reload_library_if_modified env s).result = RELOAD_SUCCESS))] ∧
      (SDL_AppIterate env invoke s appstate).result
        = invoke (Call.iterate (reload_library_if_modified env s).state.Core_SDL_AppIterate_ptr
            appstate (decide ((reload_library_if_modified env s).result = RELOAD_SUCCESS))) ∧
      (SDL_AppEvent env invoke s appstate event).calls
        = [Call.event (reload_library_if_modified env s).state.Core_SDL_AppEvent_ptr
            appstate event
            (decide ((reload_library_if_modified env s).result = RELOAD_SUCCESS))] ∧
      (SDL_AppEvent env invoke s appstate event).result
        = invoke (Call.event (reload_library_if_modified env s).state.Core_SDL_AppEvent_ptr
            appstate event
            (decide ((reload_library_if_modified env s).result = RELOAD_SUCCESS))) ∧
      (SDL_AppQuit env s appstate result).calls
        = [Call.quit (reload_library_if_modified env s).state.Core_SDL_AppQuit_ptr
            appstate result
            (decide ((reload_library_if_modified env s).result = RELOAD_SUCCESS))]) := by
  refine ⟨?_, ?_, ?_⟩
  · unfold SDL_AppInit SDL_AppIterate SDL_AppEvent SDL_AppQuit
    simp only []
    refine ⟨?_, ?_, ?_, ?_, ?_, ?_, ?_, ?_⟩ <;> split <;> rfl
  · intro hf
    simp [SDL_AppInit, SDL_AppIterate, SDL_AppEvent, SDL_AppQuit, hf]
  · intro hf
    simp [SDL_AppInit, SDL_AppIterate, SDL_AppEvent, SDL_AppQuit, hf]

/-- Evaluation of C8 on both branches: a check whose new module lacks a
symbol (`RELOAD_FAILED`) forwards nothing and yields `SDL_APP_FAILURE`; a
successful reload forwards once, through the new pointer, with
`reloaded = true`, and returns the entry point's value. -/
theorem c8_dispatcher_forwarding_witness :
    (reload_library_if_modified envPartial boundState).result = RELOAD_FAILED ∧
    (SDL_AppEvent envPartial (fun _ => SDL_APP_SUCCESS) boundState 7 8).calls = [] ∧
    (SDL_AppEvent envPartial (fun _ => SDL_APP_SUCCESS) boundState 7 8).result
      = SDL_APP_FAILURE ∧
    (reload_library_if_modified envGoodReload boundState).result ≠ RELOAD_FAILED ∧
    (SDL_AppEvent envGoodReload (fun _ => SDL_APP_SUCCESS) boundState 7 8).calls
      = [Call.event 22 7 8 true] ∧
    (SDL_AppEvent envGoodReload (fun _ => SDL_APP_SUCCESS) boundState 7 8).result
      = SDL_APP_SUCCESS :=
  have hf := (c8_dispatcher_forwarding envPartial (fun _ => SDL_APP_SUCCESS) boundState
    7 0 0 8 SDL_APP_CONTINUE).2.1 (by decide)
  have hg := (c8_dispatcher_forwarding envGoodReload (fun _ => SDL_APP_SUCCESS) boundState
    7 0 0 8 SDL_APP_CONTINUE).2.2 (by decide)
  ⟨by decide, hf.2.2.2.2.1, hf.2.2.2.2.2.1, by decide, hg.2.2.2.2.1, hg.2.2.2.2.2.1⟩

/-- C2, evaluated at process start with `./libgame.so` missing and the asset
root present: `get_mtime` yields -1 for the module file, so no load is
attempted; the call returns `RELOAD_SUCCESS` with `handle` still null and no
entry point bound, and `SDL_AppInit` calls through the null
`Core_SDL_AppInit_ptr` with `reloaded = true` instead of returning
`SDL_APP_FAILURE`. -/
theorem c2_first_load_missing_module_not_failed :
    State.initial.handle = 0 ∧
    get_mtime envNoModule LIB_PATH = -1 ∧
    (reload_library_if_modified envNoModule State.initial).result = RELOAD_SUCCESS ∧
    (reload_library_if_modified envNoModule State.initial).state.handle = 0 ∧
    (reload_library_if_modified envNoModule State.initial).state.Core_SDL_AppInit_ptr = 0 ∧
    (reload_library_if_modified envNoModule State.initial).effects
      = [Effect.stat LIB_PATH, Effect.stat ASSETS_PATH,
         Effect.print "Assets changed, triggering reload..."] ∧
    (SDL_AppInit envNoModule (fun _ => SDL_APP_CONTINUE) State.initial 7 1 9).calls
      = [Call.init 0 7 1 9 true] := by
  decide


/-- C3, evaluated on the bound state (entry points 10 to 13) with a new
module that lacks `Core_SDL_AppEvent`: the call returns `RELOAD_FAILED`, but
`handle`, `last_lib_mtime` and the four pointers have already been written,
so the pointers are 20, 21, null, 23: neither the four bound before the call
nor four non-null symbols.  The next call, whether throttled (tick 1100) or
performing the check (tick 5000), sees nothing advanced and returns
`RELOAD_NONE`, and the dispatchers forward through the partial set:
`SDL_AppEvent` calls the null pointer and `SDL_AppQuit` calls the new
module. -/
theorem c3_partial_binding_observable :
    (reload_library_if_modified envPartial boundState).result = RELOAD_FAILED ∧
    (reload_library_if_modified envPartial boundState).state.handle = 2 ∧
    (reload_library_if_modified envPartial boundState).state.last_lib_mtime = 20 ∧
    (reload_library_if_modified envPartial boundState).state.Core_SDL_AppInit_ptr = 20 ∧
    (reload_library_if_modified envPartial boundState).state.Core_SDL_AppIterate_ptr = 21 ∧
    (reload_library_if_modified envPartial boundState).state.Core_SDL_AppEvent_ptr = 0 ∧
    (reload_library_if_modified envPartial boundState).state.Core_SDL_AppQuit_ptr = 23 ∧
    ¬ (((reload_library_if_modified envPartial boundState).state.Core_SDL_AppInit_ptr
          = boundState.Core_SDL_AppInit_ptr ∧
        (reload_library_if_modified envPartial boundState).state.Core_SDL_AppIterate_ptr
          = boundState.Core_SDL_AppIterate_ptr ∧
        (reload_library_if_modified envPartial boundState).state.Core_SDL_AppEvent_ptr
          = boundState.Core_SDL_AppEvent_ptr ∧
        (reload_library_if_modified envPartial boundState).state.Core_SDL_AppQuit_ptr
          = boundState.Core_SDL_AppQuit_ptr) ∨
       ((reload_library_if_modified envPartial boundState).state.Core_SDL_AppInit_ptr ≠ 0 ∧
        (reload_library_if_modified envPartial boundState).state.Core_SDL_AppIterate_ptr ≠ 0 ∧
        (reload_library_if_modified envPartial boundState).state.Core_SDL_AppEvent_ptr ≠ 0 ∧
        (reload_library_if_modified envPartial boundState).state.Core_SDL_AppQuit_ptr ≠ 0)) ∧
    (SDL_AppEvent envPartial (fun _ => SDL_APP_CONTINUE) boundState 7 8).calls = [] ∧
    (SDL_AppEvent envPartial (fun _ => SDL_APP_CONTINUE) boundState 7 8).result
      = SDL_APP_FAILURE ∧
    (reload_library_if_modified (envAfterPartial 1100)
      (reload_library_if_modified envPartial boundState).state).result = RELOAD_NONE ∧
    (reload_library_if_modified (envAfterPartial 5000)
      (reload_library_if_modified envPartial boundState).state).result = RELOAD_NONE ∧
    (SDL_AppEvent (envAfterPartial 1100) (fun _ => SDL_APP_CONTINUE)
      (reload_library_if_modified envPartial boundState).state 7 8).calls
      = [Call.event 0 7 8 false] ∧
    (SDL_AppQuit (envAfterPartial 1100)
      (reload_library_if_modified envPartial boundState).state 7 SDL_APP_FAILURE).calls
      = [Call.quit 23 7 SDL_APP_FAILURE false] ∧
    (SDL_AppEvent (envAfterPartial 5000) (fun _ => SDL_APP_CONTINUE)
      (reload_library_if_modified envPartial boundState).state 7 8).calls
      = [Call.event 0 7 8 false] := by
  decide

/-- A throttled call returns `RELOAD_NONE` at once: the state is untouched
and nothing is asked of the outside world. -/
theorem reload_throttled (env : Env) (s : State) (ht : throttled env s) :
    reload_library_if_modified env s = ⟨s, RELOAD_NONE, []⟩ := by
  unfold reload_library_if_modified
  simp [ht]

/-- A performed check that sees neither timestamp advanced records the tick,
stats the two paths and returns `RELOAD_NONE`. -/
theorem reload_quiet_check (env : Env) (s : State) (ht : ¬ throttled env s)
    (hl : ¬ lib_changed env s) (ha : ¬ assets_changed env s) :
    reload_library_if_modified env s
      = ⟨{ s with last_check_time := env.now % 2 ^ 64 }, RELOAD_NONE,
          [Effect.stat LIB_PATH, Effect.stat ASSETS_PATH]⟩ := by
  unfold lib_changed at hl
  unfold assets_changed at ha
  unfold reload_library_if_modified
  simp [ht, hl, ha]

/-- Calls that are all throttled relative to the state they start from leave
it untouched, one after the other. -/
theorem runReloads_throttled (s : State) (rest : List Env)
    (ht : ∀ e ∈ rest, throttled e s) :
    runReloads s rest = rest.map (fun _ => (⟨s, RELOAD_NONE, []⟩ : Outcome)) := by
  induction rest with
  | nil => rfl
  | cons e tl ih =>
    have he : throttled e s := ht e (List.mem_cons_self e tl)
    have htl : ∀ x ∈ tl, throttled x s := fun x hx => ht x (List.mem_cons_of_mem e hx)
    simp only [runReloads, reload_throttled e s he, List.map_cons, ih htl]

/-- C7 as stated fails: three calls at ticks 1000, 1300 and 1600, each less
than 500 ms after the previous one, with a module bound and nothing changed on
disk; the first and the third both stat the two paths and record the tick. -/
theorem c7_throttling_counterexample :
    boundState.handle ≠ 0 ∧
    u64sub 1300 1000 < RELOAD_CHECK_INTERVAL_MS ∧
    u64sub 1600 1300 < RELOAD_CHECK_INTERVAL_MS ∧
    (runReloads boundState [envQuiet 1000, envQuiet 1300, envQuiet 1600]).map
        (fun r => r.result) = [RELOAD_NONE, RELOAD_NONE, RELOAD_NONE] ∧
    (runReloads boundState [envQuiet 1000, envQuiet 1300, envQuiet 1600]).map
        (fun r => r.effects)
      = [[Effect.stat LIB_PATH, Effect.stat ASSETS_PATH], [],
         [Effect.stat LIB_PATH, Effect.stat ASSETS_PATH]] ∧
    (runReloads boundState [envQuiet 1000, envQuiet 1300, envQuiet 1600]).map
        (fun r => r.state.last_check_time) = [1000, 1000, 1600] := by
  decide

/-- C7, amended: with a module bound and no change to the module file or the
asset root, for a sequence of calls whose first performs the check and whose
later calls are all made less than 500 ms after that first call, only the
first call touches the file system (it records its tick and stats the two
paths); every later call leaves the state as the first call left it and asks
nothing of the outside world; every call returns `RELOAD_NONE`. -/
theorem c7_throttling (s : State) (first : Env) (rest : List Env)
    (hbound : s.handle ≠ 0)
    (hquiet : ∀ e ∈ first :: rest, ¬ lib_changed e s ∧ ¬ assets_changed e s)
    (hfirst : ¬ throttled first s)
    (hnear : ∀ e ∈ rest, u64sub e.now first.now < RELOAD_CHECK_INTERVAL_MS) :
    runReloads s (first :: rest)
      = (⟨{ s with last_check_time := first.now % 2 ^ 64 }, RELOAD_NONE,
            [Effect.stat LIB_PATH, Effect.stat ASSETS_PATH]⟩ : Outcome)
        :: rest.map (fun _ =>
            (⟨{ s with last_check_time := first.now % 2 ^ 64 }, RELOAD_NONE, []⟩ : Outcome)) := by
  have hq := hquiet first (List.mem_cons_self first rest)
  have h1 := reload_quiet_check first s hfirst hq.1 hq.2
  have ht : ∀ e ∈ rest, throttled e { s with last_check_time := first.now % 2 ^ 64 } := by
    intro e he
    refine ⟨hbound, ?_⟩
    have := hnear e he
    unfold u64sub at this ⊢
    simpa [Nat.mod_mod] using this
  simp only [runReloads, h1, runReloads_throttled _ rest ht]

/-- Witness of C7: calls at ticks 1000, 1300 and 1400 on the bound state. -/
theorem c7_throttling_witness :
    boundState.handle ≠ 0 ∧ ¬ throttled (envQuiet 1000) boundState ∧
    u64sub 1300 1000 < RELOAD_CHECK_INTERVAL_MS ∧
    u64sub 1400 1000 < RELOAD_CHECK_INTERVAL_MS ∧
    runReloads boundState [envQuiet 1000, envQuiet 1300, envQuiet 1400]
      = [(⟨{ boundState with last_check_time := 1000 }, RELOAD_NONE,
            [Effect.stat LIB_PATH, Effect.stat ASSETS_PATH]⟩ : Outcome),
         ⟨{ boundState with last_check_time := 1000 }, RELOAD_NONE, []⟩,
         ⟨{ boundState with last_check_time := 1000 }, RELOAD_NONE, []⟩] :=
  ⟨by decide, by decide, by decide, by decide,
   c7_throttling boundState (envQuiet 1000) [envQuiet 1300, envQuiet 1400]
     (by decide) (by decide) (by decide) (by decide)⟩


/-- After any call the static `last_reload_handled` equals the `reloaded`
argument of that call. -/
theorem latch_after_call (env : GameEnv) (b : Bool) (ctx : GameContext) (reloaded : Bool) :
    (reloadAssetsIfNeeded env b ctx reloaded).last_reload_handled = reloaded := by
  unfold reloadAssetsIfNeeded
  cases reloaded <;> cases b <;> simp

/-- The value of `last_reload_handled` on entry to call `i` of a sequence
started with value `b`: `b` for the first call, afterwards the `reloaded`
argument of the preceding call. -/
theorem runLatch_get (calls : List (Bool × GameEnv)) :
    ∀ (b : Bool) (ctx : GameContext) (i : Nat) (reloaded : Bool) (env : GameEnv),
      calls[i]? = some (reloaded, env) →
      ∃ before : GameContext, ∃ prev : Bool,
        (runLatch b ctx calls)[i]?
          = some (before, reloadAssetsIfNeeded env prev before reloaded) ∧
        ((i = 0 ∧ prev = b) ∨ ∃ j e, i = j + 1 ∧ calls[j]? = some (prev, e)) := by
  induction calls with
  | nil => intro b ctx i reloaded env h; simp at h
  | cons c tl ih =>
    intro b ctx i reloaded env h
    obtain ⟨flag, cenv⟩ := c
    cases i with
    | zero =>
      simp only [List.getElem?_cons_zero, Option.some.injEq, Prod.mk.injEq] at h
      obtain ⟨hf, he⟩ := h
      subst hf; subst he
      exact ⟨ctx, b, by simp [runLatch], Or.inl ⟨rfl, rfl⟩⟩
    | succ k =>
      simp only [List.getElem?_cons_succ] at h
      obtain ⟨before, prev, hget, hprev⟩ :=
        ih (reloadAssetsIfNeeded cenv b ctx flag).last_reload_handled
          (reloadAssetsIfNeeded cenv b ctx flag).ctx k reloaded env h
      refine ⟨before, prev, by simpa [runLatch] using hget, Or.inr ?_⟩
      rcases hprev with ⟨hk, hp⟩ | ⟨j, e, hk, hj⟩
      · refine ⟨0, cenv, by omega, ?_⟩
        rw [hp, latch_after_call]
        simp
      · exact ⟨j + 1, e, by omega, by simpa using hj⟩


/-- The function `freeAllAssets` destroys, in the order font, sound, music,
image, each asset whose pointer is non-null, and leaves all four pointers
null. -/
theorem freeAllAssets_eq (ctx : GameContext) :
    freeAllAssets ctx
      = ({ ctx with font := 0, sound := 0, music := 0, image := 0 },
         (if ctx.font ≠ 0 then [GameEffect.TTF_CloseFont ctx.font] else []) ++
         (if ctx.sound ≠ 0 then [GameEffect.MIX_DestroyTrack ctx.sound] else []) ++
         (if ctx.music ≠ 0 then [GameEffect.MIX_DestroyTrack ctx.music] else []) ++
         (if ctx.image ≠ 0 then [GameEffect.SDL_DestroyTexture ctx.image] else [])) := by
  obtain ⟨lastTime, x, y, window, renderer, image, font, mixer, sound, music, muted⟩ := ctx
  unfold freeAllAssets
  by_cases hf : font = 0 <;> by_cases hs : sound = 0 <;> by_cases hm : music = 0 <;>
    by_cases hi : image = 0 <;> simp [hf, hs, hm, hi]

/-- The function `loadAllAssets`, outcome by outcome: the library calls it
makes, the pointers it stores and the value it returns, for each place at
which loading can stop. -/
theorem loadAllAssets_cases (env : GameEnv) (c : GameContext) (r : Nat)
    (img sa st ma mt fnt : Nat)
    (himg : img = env.IMG_LoadTexture r "assets/image.png")
    (hsa : sa = env.MIX_LoadAudio c.mixer "assets/sound.wav")
    (hst : st = env.MIX_CreateTrack c.mixer "assets/sound.wav")
    (hma : ma = env.MIX_LoadAudio c.mixer "assets/music.wav")
    (hmt : mt = env.MIX_CreateTrack c.mixer "assets/music.wav")
    (hfnt : fnt = env.TTF_OpenFont "assets/font.ttf") :
    (img = 0 →
      loadAllAssets env c r
        = ({ c with image := 0 }, SDL_APP_FAILURE,
           [GameEffect.IMG_LoadTexture r "assets/image.png",
            GameEffect.log "Could not load image at",
            GameEffect.log "Could not load image."])) ∧
    (img ≠ 0 → sa = 0 →
      loadAllAssets env c r
        = ({ c with image := img, sound := 0 }, SDL_APP_FAILURE,
           [GameEffect.IMG_LoadTexture r "assets/image.png",
            GameEffect.MIX_LoadAudio c.mixer "assets/sound.wav",
            GameEffect.log "Could not load sound at",
            GameEffect.log "Could not load sound."])) ∧
    (img ≠ 0 → sa ≠ 0 → st = 0 →
      loadAllAssets env c r
        = ({ c with image := img, sound := 0 }, SDL_APP_FAILURE,
           [GameEffect.IMG_LoadTexture r "assets/image.png",
            GameEffect.MIX_LoadAudio c.mixer "assets/sound.wav",
            GameEffect.MIX_CreateTrack c.mixer,
            GameEffect.MIX_SetTrackAudio 0 sa,
            GameEffect.MIX_DestroyAudio sa,
            GameEffect.log "Could not load sound."])) ∧
    (img ≠ 0 → sa ≠ 0 → st ≠ 0 → ma = 0 →
      loadAllAssets env c r
        = ({ c with image := img, sound := st, music := 0 }, SDL_APP_FAILURE,
           [GameEffect.IMG_LoadTexture r "assets/image.png",
            GameEffect.MIX_LoadAudio c.mixer "assets/sound.wav",
            GameEffect.MIX_CreateTrack c.mixer,
            GameEffect.MIX_SetTrackAudio st sa,
            GameEffect.MIX_DestroyAudio sa,
            GameEffect.MIX_LoadAudio c.mixer "assets/music.wav",
            GameEffect.log "Could not load sound at",
            GameEffect.log "Could not load music."])) ∧
    (img ≠ 0 → sa ≠ 0 → st ≠ 0 → ma ≠ 0 → mt = 0 →
      loadAllAssets env c r
        = ({ c with image := img, sound := st, music := 0 }, SDL_APP_FAILURE,
           [GameEffect.IMG_LoadTexture r "assets/image.png",
            GameEffect.MIX_LoadAudio c.mixer "assets/sound.wav",
            GameEffect.MIX_CreateTrack c.mixer,
            GameEffect.MIX_SetTrackAudio st sa,
            GameEffect.MIX_DestroyAudio sa,
            GameEffect.MIX_LoadAudio c.mixer "assets/music.wav",
            GameEffect.MIX_CreateTrack c.mixer,
            GameEffect.MIX_SetTrackAudio 0 ma,
            GameEffect.MIX_DestroyAudio ma,
            GameEffect.log "Could not load music."])) ∧
    (img ≠ 0 → sa ≠ 0 → st ≠ 0 → ma ≠ 0 → mt ≠ 0 → fnt = 0 →
      loadAllAssets env c r
        = ({ c with image := img, sound := st, music := mt, font := 0 }, SDL_APP_FAILURE,
           [GameEffect.IMG_LoadTexture r "assets/image.png",
            GameEffect.MIX_LoadAudio c.mixer "assets/sound.wav",
            GameEffect.MIX_CreateTrack c.mixer,
            GameEffect.MIX_SetTrackAudio st sa,
            GameEffect.MIX_DestroyAudio sa,
            GameEffect.MIX_LoadAudio c.mixer "assets/music.wav",
            GameEffect.MIX_CreateTrack c.mixer,
            GameEffect.MIX_SetTrackAudio mt ma,
            GameEffect.MIX_DestroyAudio ma,
            GameEffect.TTF_OpenFont "assets/font.ttf",
            GameEffect.log "Font could not be loaded!"])) ∧
    (img ≠ 0 → sa ≠ 0 → st ≠ 0 → ma ≠ 0 → mt ≠ 0 → fnt ≠ 0 →
      loadAllAssets env c r
        = ({ c with image := img, sound := st, music := mt, font := fnt }, SDL_APP_CONTINUE,
           [GameEffect.IMG_LoadTexture r "assets/image.png",
            GameEffect.MIX_LoadAudio c.mixer "assets/sound.wav",
            GameEffect.MIX_CreateTrack c.mixer,
            GameEffect.MIX_SetTrackAudio st sa,
            GameEffect.MIX_DestroyAudio sa,
            GameEffect.MIX_LoadAudio c.mixer "assets/music.wav",
            GameEffect.MIX_CreateTrack c.mixer,
            GameEffect.MIX_SetTrackAudio mt ma,
            GameEffect.MIX_DestroyAudio ma,
            GameEffect.TTF_OpenFont "assets/font.ttf"])) := by
  subst himg hsa hst hma hmt hfnt
  refine ⟨?_, ?_, ?_, ?_, ?_, ?_, ?_⟩
  · intro h1
    simp [loadAllAssets, loadTexture, h1]
  · intro h1 h2
    simp [loadAllAssets, loadTexture, loadTrack, h1, h2]
  · intro h1 h2 h3
    simp [loadAllAssets, loadTexture, loadTrack, h1, h2, h3]
  · intro h1 h2 h3 h4
    simp [loadAllAssets, loadTexture, loadTrack, h1, h2, h3, h4]
  · intro h1 h2 h3 h4 h5
    simp [loadAllAssets, loadTexture, loadTrack, h1, h2, h3, h4, h5]
  · intro h1 h2 h3 h4 h5 h6
    simp [loadAllAssets, loadTexture, loadTrack, h1, h2, h3, h4, h5, h6]
  · intro h1 h2 h3 h4 h5 h6
    simp [loadAllAssets, loadTexture, loadTrack, h1, h2, h3, h4, h5, h6]


/-- C9 (module-side latch): in any sequence of calls of `reloadAssetsIfNeeded`
started with `last_reload_handled = false`, call `i` frees and re-acquires the
assets exactly when its `reloaded` argument is true and it is the first call
or the preceding call had `reloaded = false`.  On such a call the latch is
set, every non-null asset of the context is destroyed (font, sound, music,
image, in that order) and the assets are loaded again through the library:
the library calls made, the pointers stored and the value returned are given
for each place at which loading can stop.  Every other call returns
`SDL_APP_CONTINUE`, leaves the context as it was and makes no library call;
and a call with `reloaded = false` leaves the latch reset. -/
theorem c9_module_side_latch (ctx : GameContext) (calls : List (Bool × GameEnv)) (i : Nat)
    (reloaded : Bool) (env : GameEnv) (hcall : calls[i]? = some (reloaded, env)) :
    ∃ before : GameContext, ∃ step : LatchStep,
      (runLatch false ctx calls)[i]? = some (before, step) ∧
      ((reloaded = true ∧ (i = 0 ∨ ∃ j e, i = j + 1 ∧ calls[j]? = some (false, e))) →
        step.last_reload_handled = true ∧
        step.ctx
          = (loadAllAssets env (freeAllAssets before).1 (freeAllAssets before).1.renderer).1 ∧
        step.result
          = (loadAllAssets env (freeAllAssets before).1 (freeAllAssets before).1.renderer).2.1 ∧
        step.effects
          = [GameEffect.log "Hot reload: reloading assets..."] ++ (freeAllAssets before).2 ++
            (loadAllAssets env (freeAllAssets before).1
              (freeAllAssets before).1.renderer).2.2 ∧
        ∀ img sa st ma mt fnt : Nat,
          img = env.IMG_LoadTexture before.renderer "assets/image.png" →
          sa = env.MIX_LoadAudio before.mixer "assets/sound.wav" →
          st = env.MIX_CreateTrack before.mixer "assets/sound.wav" →
          ma = env.MIX_LoadAudio before.mixer "assets/music.wav" →
          mt = env.MIX_CreateTrack before.mixer "assets/music.wav" →
          fnt = env.TTF_OpenFont "assets/font.ttf" →
          ∃ loadEff : List GameEffect,
            step.effects
              = GameEffect.log "Hot reload: reloading assets..." ::
                ((if before.font ≠ 0 then [GameEffect.TTF_CloseFont before.font] else []) ++
                 (if before.sound ≠ 0 then [GameEffect.MIX_DestroyTrack before.sound]
                  else []) ++
                 (if before.music ≠ 0 then [GameEffect.MIX_DestroyTrack before.music]
                  else []) ++
                 (if before.image ≠ 0 then [GameEffect.SDL_DestroyTexture before.image]
                  else []) ++
                 loadEff) ∧
            (img = 0 →
              step.result = SDL_APP_FAILURE ∧
              step.ctx = { before with font := 0, sound := 0, music := 0, image := 0 } ∧
              loadEff
                = [GameEffect.IMG_LoadTexture before.renderer "assets/image.png",
                   GameEffect.log "Could not load image at",
                   GameEffect.log "Could not load image."]) ∧
            (img ≠ 0 → sa = 0 →
              step.result = SDL_APP_FAILURE ∧
              step.ctx = { before with font := 0, sound := 0, music := 0, image := img } ∧
              loadEff
                = [GameEffect.IMG_LoadTexture before.renderer "assets/image.png",
                   GameEffect.MIX_LoadAudio before.mixer "assets/sound.wav",
                   GameEffect.log "Could not load sound at",
                   GameEffect.log "Could not load sound."]) ∧
            (img ≠ 0 → sa ≠ 0 → st = 0 →
              step.result = SDL_APP_FAILURE ∧
              step.ctx = { before with font := 0, sound := 0, music := 0, image := img } ∧
              loadEff
                = [GameEffect.IMG_LoadTexture before.renderer "assets/image.png",
                   GameEffect.MIX_LoadAudio before.mixer "assets/sound.wav",
                   GameEffect.MIX_CreateTrack before.mixer,
                   GameEffect.MIX_SetTrackAudio 0 sa,
                   GameEffect.MIX_DestroyAudio sa,
                   GameEffect.log "Could not load sound."]) ∧
            (img ≠ 0 → sa ≠ 0 → st ≠ 0 → ma = 0 →
              step.result = SDL_APP_FAILURE ∧
              step.ctx = { before with font := 0, sound := st, music := 0, image := img } ∧
              loadEff
                = [GameEffect.IMG_LoadTexture before.renderer "assets/image.png",
                   GameEffect.MIX_LoadAudio before.mixer "assets/sound.wav",
                   GameEffect.MIX_CreateTrack before.mixer,
                   GameEffect.MIX_SetTrackAudio st sa,
                   GameEffect.MIX_DestroyAudio sa,
                   GameEffect.MIX_LoadAudio before.mixer "assets/music.wav",
                   GameEffect.log "Could not load sound at",
                   GameEffect.log "Could not load music."]) ∧
            (img ≠ 0 → sa ≠ 0 → st ≠ 0 → ma ≠ 0 → mt = 0 →
              step.result = SDL_APP_FAILURE ∧
              step.ctx = { before with font := 0, sound := st, music := 0, image := img } ∧
              loadEff
                = [GameEffect.IMG_LoadTexture before.renderer "assets/image.png",
                   GameEffect.MIX_LoadAudio before.mixer "assets/sound.wav",
                   GameEffect.MIX_CreateTrack before.mixer,
                   GameEffect.MIX_SetTrackAudio st sa,
                   GameEffect.MIX_DestroyAudio sa,
                   GameEffect.MIX_LoadAudio before.mixer "assets/music.wav",
                   GameEffect.MIX_CreateTrack before.mixer,
                   GameEffect.MIX_SetTrackAudio 0 ma,
                   GameEffect.MIX_DestroyAudio ma,
                   GameEffect.log "Could not load music."]) ∧
            (img ≠ 0 → sa ≠ 0 → st ≠ 0 → ma ≠ 0 → mt ≠ 0 → fnt = 0 →
              step.result = SDL_APP_FAILURE ∧
              step.ctx = { before with font := 0, sound := st, music := mt, image := img } ∧
              loadEff
                = [GameEffect.IMG_LoadTexture before.renderer "assets/image.png",
                   GameEffect.MIX_LoadAudio before.mixer "assets/sound.wav",
                   GameEffect.MIX_CreateTrack before.mixer,
                   GameEffect.MIX_SetTrackAudio st sa,
                   GameEffect.MIX_DestroyAudio sa,
                   GameEffect.MIX_LoadAudio before.mixer "assets/music.wav",
                   GameEffect.MIX_CreateTrack before.mixer,
                   GameEffect.MIX_SetTrackAudio mt ma,
                   GameEffect.MIX_DestroyAudio ma,
                   GameEffect.TTF_OpenFont "assets/font.ttf",
                   GameEffect.log "Font could not be loaded!"]) ∧
            (img ≠ 0 → sa ≠ 0 → st ≠ 0 → ma ≠ 0 → mt ≠ 0 → fnt ≠ 0 →
              step.result = SDL_APP_CONTINUE ∧
              step.ctx = { before with font := fnt, sound := st, music := mt, image := img } ∧
              loadEff
                = [GameEffect.IMG_LoadTexture before.renderer "assets/image.png",
                   GameEffect.MIX_LoadAudio before.mixer "assets/sound.wav",
                   GameEffect.MIX_CreateTrack before.mixer,
                   GameEffect.MIX_SetTrackAudio st sa,
                   GameEffect.MIX_DestroyAudio sa,
                   GameEffect.MIX_LoadAudio before.mixer "assets/music.wav",
                   GameEffect.MIX_CreateTrack before.mixer,
                   GameEffect.MIX_SetTrackAudio mt ma,
                   GameEffect.MIX_DestroyAudio ma,
                   GameEffect.TTF_OpenFont "assets/font.ttf"])) ∧
      (¬ (reloaded = true ∧ (i = 0 ∨ ∃ j e, i = j + 1 ∧ calls[j]? = some (false, e))) →
        step.result = SDL_APP_CONTINUE ∧ step.ctx = before ∧ step.effects = []) ∧
      (reloaded = false → step.last_reload_handled = false) := by
  obtain ⟨before, prev, hget, hprev⟩ := runLatch_get calls false ctx i reloaded env hcall
  refine ⟨before, reloadAssetsIfNeeded env prev before reloaded, hget, ?_, ?_, ?_⟩
  · rintro ⟨hr, hedge⟩
    have hp : prev = false := by
      rcases hprev with ⟨_, hp⟩ | ⟨j, e, hj, hpj⟩
      · exact hp
      · rcases hedge with h0 | ⟨k, e2, hk, hkj⟩
        · omega
        · have hjk : j = k := by omega
          subst hjk
          rw [hpj] at hkj
          simp only [Option.some.injEq, Prod.mk.injEq] at hkj
          exact hkj.1
    subst hr; subst hp
    refine ⟨by simp [reloadAssetsIfNeeded], by simp [reloadAssetsIfNeeded],
      by simp [reloadAssetsIfNeeded], by simp [reloadAssetsIfNeeded], ?_⟩
    intro img sa st ma mt fnt himg hsa hst hma hmt hfnt
    have hfree := freeAllAssets_eq before
    have hload := loadAllAssets_cases env
      { before with font := 0, sound := 0, music := 0, image := 0 } before.renderer
      img sa st ma mt fnt himg hsa hst hma hmt hfnt
    obtain ⟨c1, c2, c3, c4, c5, c6, c7⟩ := hload
    refine ⟨(loadAllAssets env { before with font := 0, sound := 0, music := 0, image := 0 }
      before.renderer).2.2, ?_, ?_, ?_, ?_, ?_, ?_, ?_, ?_⟩
    · simp [reloadAssetsIfNeeded, hfree]
    · intro h1
      simp [reloadAssetsIfNeeded, hfree, c1 h1]
    · intro h1 h2
      simp [reloadAssetsIfNeeded, hfree, c2 h1 h2]
    · intro h1 h2 h3
      simp [reloadAssetsIfNeeded, hfree, c3 h1 h2 h3]
    · intro h1 h2 h3 h4
      simp [reloadAssetsIfNeeded, hfree, c4 h1 h2 h3 h4]
    · intro h1 h2 h3 h4 h5
      simp [reloadAssetsIfNeeded, hfree, c5 h1 h2 h3 h4 h5]
    · intro h1 h2 h3 h4 h5 h6
      simp [reloadAssetsIfNeeded, hfree, c6 h1 h2 h3 h4 h5 h6]
    · intro h1 h2 h3 h4 h5 h6
      simp [reloadAssetsIfNeeded, hfree, c7 h1 h2 h3 h4 h5 h6]
  · intro hno
    cases reloaded with
    | false => simp [reloadAssetsIfNeeded]
    | true =>
      have hp : prev = true := by
        cases hpv : prev with
        | true => rfl
        | false =>
          exfalso
          apply hno
          refine ⟨rfl, ?_⟩
          rcases hprev with ⟨h0, _⟩ | ⟨j, e, hj, hpj⟩
          · exact Or.inl h0
          · exact Or.inr ⟨j, e, hj, by rw [hpj, hpv]⟩
      subst hp
      simp [reloadAssetsIfNeeded]
  · intro hr
    rw [latch_after_call]
    exact hr


/-- Witness of C9: four calls with `reloaded` = true, true, false, true on a
loaded context.  The fourth call (index 3) follows a call with
`reloaded = false`: it destroys the four assets acquired by the first call and
loads them again.  The second call (index 1) follows a call with
`reloaded = true`, so it touches nothing. -/
theorem c9_module_side_latch_witness :
    [(true, gameEnvOk), (true, gameEnvOk), (false, gameEnvOk), (true, gameEnvOk)][3]?
      = some (true, gameEnvOk) ∧
    (∃ before : GameContext, ∃ step : LatchStep,
      (runLatch false loadedContext
        [(true, gameEnvOk), (true, gameEnvOk), (false, gameEnvOk), (true, gameEnvOk)])[3]?
        = some (before, step) ∧
      before = { loadedContext with font := 44, sound := 43, music := 43, image := 41 } ∧
      step.result = SDL_APP_CONTINUE ∧
      step.ctx = { loadedContext with font := 44, sound := 43, music := 43, image := 41 } ∧
      step.effects
        = [GameEffect.log "Hot reload: reloading assets...",
           GameEffect.TTF_CloseFont 44,
           GameEffect.MIX_DestroyTrack 43,
           GameEffect.MIX_DestroyTrack 43,
           GameEffect.SDL_DestroyTexture 41,
           GameEffect.IMG_LoadTexture 2 "assets/image.png",
           GameEffect.MIX_LoadAudio 3 "assets/sound.wav",
           GameEffect.MIX_CreateTrack 3,
           GameEffect.MIX_SetTrackAudio 43 42,
           GameEffect.MIX_DestroyAudio 42,
           GameEffect.MIX_LoadAudio 3 "assets/music.wav",
           GameEffect.MIX_CreateTrack 3,
           GameEffect.MIX_SetTrackAudio 43 42,
           GameEffect.MIX_DestroyAudio 42,
           GameEffect.TTF_OpenFont "assets/font.ttf"]) ∧
    [(true, gameEnvOk), (true, gameEnvOk), (false, gameEnvOk), (true, gameEnvOk)][1]?
      = some (true, gameEnvOk) ∧
    (∃ before : GameContext, ∃ step : LatchStep,
      (runLatch false loadedContext
        [(true, gameEnvOk), (true, gameEnvOk), (false, gameEnvOk), (true, gameEnvOk)])[1]?
        = some (before, step) ∧
      step.result = SDL_APP_CONTINUE ∧ step.ctx = before ∧ step.effects = []) := by
  refine ⟨rfl, ?_, rfl, ?_⟩
  · obtain ⟨before, step, hget, hedge, _, _⟩ := c9_module_side_latch loadedContext
      [(true, gameEnvOk), (true, gameEnvOk), (false, gameEnvOk), (true, gameEnvOk)] 3 true
      gameEnvOk rfl
    have h3 : ((runLatch false loadedContext
        [(true, gameEnvOk), (true, gameEnvOk), (false, gameEnvOk), (true, gameEnvOk)])[3]?).map
          Prod.fst
        = some { loadedContext with font := 44, sound := 43, music := 43, image := 41 } := by
      decide
    rw [hget] at h3
    simp only [Option.map_some', Option.some.injEq] at h3
    subst h3
    obtain ⟨_, _, _, _, hall⟩ := hedge ⟨rfl, Or.inr ⟨2, gameEnvOk, rfl, rfl⟩⟩
    obtain ⟨loadEff, heff, _, _, _, _, _, _, hok⟩ := hall _ _ _ _ _ _ rfl rfl rfl rfl rfl rfl
    obtain ⟨hres, hctx, hle⟩ := hok (by decide) (by decide) (by decide) (by decide)
      (by decide) (by decide)
    refine ⟨_, step, hget, rfl, hres, ?_, ?_⟩
    · rw [hctx]; rfl
    · rw [heff, hle]; rfl
  · obtain ⟨before, step, hget, _, hno, _⟩ := c9_module_side_latch loadedContext
      [(true, gameEnvOk), (true, gameEnvOk), (false, gameEnvOk), (true, gameEnvOk)] 1 true
      gameEnvOk rfl
    refine ⟨before, step, hget, hno ?_⟩
    rintro ⟨_, h0 | ⟨j, e, hj, hje⟩⟩
    · exact absurd h0 (by decide)
    · have hj0 : j = 0 := by omega
      subst hj0
      simp at hje

/-- Evaluation of the latch on the sequence true, true, false, true, true:
the assets are re-acquired by the first and the fourth call only. -/
theorem latch_run_example :
    (runLatch false loadedContext
      [(true, gameEnvOk), (true, gameEnvOk), (false, gameEnvOk), (true, gameEnvOk),
       (true, gameEnvOk)]).map (fun r => decide (r.2.effects = []))
      = [false, true, true, false, true] := by
  decide

end Bralltog
